import Mathlib

/-!
Verification of the diagnostic classification and polling engine of the
`ai-execution-dashboard-ultra` repository.

The definitions below are a shallow embedding of the logic in
`src/app/page.tsx` (the functions `checkEndpoint`, `detectProblems` and
`fetchDiagnostics`) together with the API client method
`UltraSecureApiClient.healthCheck` from `src/lib/api/client.ts`.
JavaScript values flowing through the rules are modelled by a small JSON
type with explicit truthiness; machine wall-clock latencies are natural
numbers of milliseconds.
-/

/-- SystemStatus from page.tsx line 18: global status values. -/
inductive SystemStatus where
  | operational
  | degraded
  | critical
  | down
deriving DecidableEq

/-- CheckStatus from page.tsx line 19: tri-state check result plus loading. -/
inductive CheckStatus where
  | success
  | warning
  | error
  | loading
deriving DecidableEq

/-- Severity from page.tsx line 20: problem severity values. -/
inductive Severity where
  | critical
  | warning
  | info
  | success
deriving DecidableEq

mutual

/-- Untyped JSON values, used for the raw health/ready payloads which the
source treats as `any`. Objects are association lists of fields (encoded
by the mutual types `JsonList` and `JsonFields`). -/
inductive Json where
  | null
  | bool (b : Bool)
  | num (n : Int)
  | str (s : String)
  | arr (xs : JsonList)
  | obj (fields : JsonFields)
deriving DecidableEq

/-- A list of JSON values (elements of a JSON array). -/
inductive JsonList where
  | nil
  | cons (v : Json) (tl : JsonList)
deriving DecidableEq

/-- An association list of JSON object fields. -/
inductive JsonFields where
  | nil
  | cons (k : String) (v : Json) (tl : JsonFields)
deriving DecidableEq

end

/-- Lookup of the first field with the given key in a JSON object body. -/
def JsonFields.find? : JsonFields → String → Option Json
  | .nil, _ => none
  | .cons k v tl, key => if k = key then some v else tl.find? key

/-- JavaScript truthiness of a JSON value (objects and arrays are always
truthy; `null`, `false`, `0` and the empty string are falsy). -/
def Json.truthy : Json → Bool
  | .null => false
  | .bool b => b
  | .num n => n != 0
  | .str s => s != ""
  | .arr _ => true
  | .obj _ => true

/-- Property access `v.k` in JavaScript: a field lookup on an object, and
`undefined` (here `none`) on every non-object value. -/
def Json.get : Json → String → Option Json
  | .obj fields, k => fields.find? k
  | _, _ => none

/-- Truthiness of a possibly-undefined JavaScript value (`none` is
`undefined`, which is falsy). -/
def jsTruthy : Option Json → Bool
  | none => false
  | some v => v.truthy

/-- Optional-chaining access `v?.k` on a possibly-undefined value. -/
def jsGet (v : Option Json) (k : String) : Option Json :=
  v.bind (fun w => Json.get w k)

/-- The JavaScript string expression `s || d`: the empty string is falsy,
so it falls through to the default. -/
def jsOrStr (s d : String) : String :=
  if s = "" then d else s

/-- Check whether the second list occurs at the head of the first. -/
def leadsWith : List Char → List Char → Bool
  | _, [] => true
  | [], _ :: _ => false
  | a :: as, b :: bs => a = b && leadsWith as bs

/-- Check whether the second list occurs as a contiguous sublist of the
first (the semantics of JavaScript `String.prototype.includes`). -/
def charsInclude : List Char → List Char → Bool
  | [], pat => pat.isEmpty
  | s@(_ :: rest), pat => leadsWith s pat || charsInclude rest pat

/-- JavaScript `s.includes(pat)` on strings. -/
def strIncludes (s pat : String) : Bool :=
  charsInclude s.data pat.data

/-- JavaScript `s.toLowerCase()` restricted to ASCII, which is all the
source ever lowercases. -/
def lowerStr (s : String) : String :=
  ⟨s.data.map Char.toLower⟩

/-- A thrown JavaScript exception: either an `Error` instance carrying a
message, or some other thrown value. -/
inductive JsError where
  | err (msg : String)
  | nonError
deriving DecidableEq

/-- The message extracted by `error instanceof Error ? error.message :
"Network error"` (page.tsx line 130). -/
def JsError.message : JsError → String
  | .err m => m
  | .nonError => "Network error"

/-- An HTTP response as observed by the dashboard: its status code and the
`access-control-allow-origin` header (the only header the client reads). -/
structure HttpResponse where
  statusCode : Nat
  corsOrigin : Option String
deriving DecidableEq

/-- The `ok` flag of a fetch response: status in the 200 to 299 range. -/
def HttpResponse.ok (r : HttpResponse) : Bool :=
  200 ≤ r.statusCode && r.statusCode ≤ 299

/-- EndpointCheck from page.tsx lines 22 to 29 (the wall-clock
`lastChecked` field is omitted). -/
structure EndpointCheck where
  name : String
  path : String
  status : CheckStatus
  latency : Option Nat
  errMsg : Option String
deriving DecidableEq

/-- PluginStatus from page.tsx lines 31 to 37, restricted to the fields
the diagnostic logic reads. -/
structure PluginStatus where
  name : String
  available : Bool
deriving DecidableEq

/-- Problem from page.tsx lines 39 to 49 (the wall-clock `detectedAt`
field is omitted; `related` is the optional `related?` field). -/
structure Problem where
  id : String
  severity : Severity
  title : String
  description : String
  component : String
  solution : String
  steps : List String
  related : Option (List String) := none
deriving DecidableEq

/-- checkEndpoint from page.tsx lines 98 to 133. The outcome of the
underlying `fetch` (a response, or a thrown exception, e.g. on timeout
abort or network failure) and the measured wall-clock latency are inputs;
the function itself catches every exception and always returns a record. -/
def checkEndpoint (name path : String) (fetched : Except JsError HttpResponse)
    (latency : Nat) : EndpointCheck :=
  match fetched with
  | .ok response =>
      { name := name, path := path,
        status := if response.ok then .success else .error,
        latency := some latency,
        errMsg := if response.ok then none
                  else some ("HTTP " ++ toString response.statusCode) }
  | .error e =>
      { name := name, path := path,
        status := .error,
        latency := some latency,
        errMsg := some e.message }

/-- The global status resolution of page.tsx lines 342 to 350: health
error wins, then readiness error or warning degrades, else operational. -/
def resolveGlobalStatus (healthStatus readyStatus : CheckStatus) : SystemStatus :=
  if healthStatus = .error then .down
  else if readyStatus = .error ∨ readyStatus = .warning then .degraded
  else .operational

/-- The problem pushed by rule 1 of detectProblems (page.tsx lines 139 to
156): health payload missing or its status not "healthy". -/
def healthFailureProblem : Problem :=
  { id := "health-failure",
    severity := .critical,
    title := "Health Check Failed",
    description := "The system health endpoint is not responding correctly. This indicates core system issues.",
    component := "Core System",
    solution := "Restart the API service and check system logs for errors.",
    steps := [
      "Check Railway logs for the API service",
      "Verify database connectivity",
      "Check Redis connection status",
      "Restart the API service if needed",
      "Monitor health endpoint for recovery"] }

/-- Rule 1 of detectProblems: fires when `!healthData || healthData.status
!== "healthy"`. -/
def healthFailureRule (healthData : Option Json) : List Problem :=
  if jsTruthy healthData = false ∨ jsGet healthData "status" ≠ some (Json.str "healthy") then
    [healthFailureProblem]
  else []

/-- The problem pushed by rule 2 of detectProblems (page.tsx lines 159 to
176): readiness payload missing or its ready field not true; severity is
warning when the ready field is explicitly false, critical otherwise. -/
def readinessFailureProblem (readyData : Option Json) : Problem :=
  { id := "readiness-failure",
    severity := if jsGet readyData "ready" = some (Json.bool false) then .warning else .critical,
    title := "System Not Ready",
    description := "The system readiness check indicates dependencies are not fully initialized.",
    component := "System Initialization",
    solution := "Wait for dependencies to initialize or check dependency health.",
    steps := [
      "Check database migration status",
      "Verify all required plugins are loaded",
      "Check external service connectivity",
      "Review initialization logs",
      "Wait for automatic recovery (usually 1-2 minutes)"] }

/-- Rule 2 of detectProblems: fires when `!readyData || readyData.ready
!== true`. -/
def readinessFailureRule (readyData : Option Json) : List Problem :=
  if jsTruthy readyData = false ∨ jsGet readyData "ready" ≠ some (Json.bool true) then
    [readinessFailureProblem readyData]
  else []

/-- The problem pushed by rule 3 of detectProblems (page.tsx lines 179 to
197): the nested database check of the health payload is false. -/
def databaseConnectionProblem : Problem :=
  { id := "database-connection",
    severity := .critical,
    title := "Database Connection Failed",
    description := "The system cannot connect to the PostgreSQL database.",
    component := "Database",
    solution := "Check database service status and connection string.",
    steps := [
      "Verify PostgreSQL service is running in Railway",
      "Check DATABASE_URL environment variable",
      "Verify database credentials are correct",
      "Check network connectivity between services",
      "Review database service logs"],
    related := some ["readiness-failure"] }

/-- Rule 3 of detectProblems: fires when `healthData?.checks?.database ===
false`. -/
def databaseConnectionRule (healthData : Option Json) : List Problem :=
  if jsGet (jsGet healthData "checks") "database" = some (Json.bool false) then
    [databaseConnectionProblem]
  else []

/-- The problem pushed by rule 4 of detectProblems (page.tsx lines 200 to
217): the nested redis check of the health payload is false. -/
def redisConnectionProblem : Problem :=
  { id := "redis-connection",
    severity := .warning,
    title := "Redis Cache Unavailable",
    description := "The system cannot connect to Redis cache. Performance may be degraded.",
    component := "Cache",
    solution := "Check Redis service status. System will work without cache but with reduced performance.",
    steps := [
      "Verify Redis service is running in Railway",
      "Check REDIS_URL environment variable",
      "Verify Redis credentials",
      "System will continue operating without cache",
      "Check Redis service logs for details"] }

/-- Rule 4 of detectProblems: fires when `healthData?.checks?.redis ===
false`. -/
def redisConnectionRule (healthData : Option Json) : List Problem :=
  if jsGet (jsGet healthData "checks") "redis" = some (Json.bool false) then
    [redisConnectionProblem]
  else []

/-- The required plugins and their accepted name patterns (page.tsx lines
221 to 225). -/
def criticalPlugins : List (String × List String) :=
  [("store", ["store", "store-postgres", "database-postgres"]),
   ("supervisor", ["supervisor", "supervisor-postgres"]),
   ("memory", ["memory", "memory-stm", "memory-stm-db"])]

/-- The lowercased display names of the fetched plugins (page.tsx line
228): `(p.name || p.id || "").toLowerCase()`. The PluginStatus interface
has no id field, so the `p.id` access yields undefined and the expression
reduces to `p.name || ""`. -/
def foundPluginNames (plugins : List PluginStatus) : List String :=
  plugins.map (fun p => lowerStr (jsOrStr p.name ""))

/-- Whether any accepted pattern of a required plugin occurs as a
substring of any fetched plugin name (page.tsx lines 231 to 235). -/
def pluginPatternFound (plugins : List PluginStatus) (patterns : List String) : Bool :=
  patterns.any (fun pat => (foundPluginNames plugins).any (fun fn => strIncludes fn (lowerStr pat)))

/-- The required plugins with no matching fetched name, in catalog order
(page.tsx lines 227 to 239). -/
def missingPlugins (plugins : List PluginStatus) : List String :=
  (criticalPlugins.filter (fun c => !(pluginPatternFound plugins c.2))).map Prod.fst

/-- The closing resolution step of the missing-plugins problem (page.tsx
line 257): lists the plugin names that were found, or a placeholder. -/
def availablePluginsStep (plugins : List PluginStatus) : String :=
  "Available plugins: " ++ jsOrStr (String.intercalate ", " (foundPluginNames plugins)) "None detected"

/-- The problem pushed by rule 5 of detectProblems (page.tsx lines 241 to
259). -/
def missingPluginsProblem (plugins : List PluginStatus) : Problem :=
  { id := "missing-plugins",
    severity := .critical,
    title := "Missing Critical Plugins: " ++ String.intercalate ", " (missingPlugins plugins),
    description := "Required plugins are not available: " ++ String.intercalate ", " (missingPlugins plugins) ++ ". Core functionality may be impaired.",
    component := "Plugins",
    solution := "Ensure all required plugins are properly installed and initialized.",
    steps := [
      "Check plugin installation in package.json",
      "Verify plugins are loaded during startup",
      "Check plugin initialization logs",
      "Restart API service to reload plugins",
      "Verify plugin configuration is correct",
      availablePluginsStep plugins] }

/-- Rule 5 of detectProblems: fires when some required plugin is missing
and the fetched plugin list is non-empty (page.tsx line 241). -/
def missingPluginsRule (plugins : List PluginStatus) : List Problem :=
  if missingPlugins plugins ≠ [] ∧ plugins ≠ [] then
    [missingPluginsProblem plugins]
  else []

/-- The endpoint probes with status error (page.tsx line 266). -/
def failedEndpoints (endpoints : List EndpointCheck) : List EndpointCheck :=
  endpoints.filter (fun e => e.status == CheckStatus.error)

/-- The problem pushed by rule 6 of detectProblems (page.tsx lines 267 to
284): severity is critical when every probed endpoint failed, warning
otherwise; the description names the failing endpoints. -/
def endpointFailuresProblem (endpoints : List EndpointCheck) : Problem :=
  { id := "endpoint-failures",
    severity := if (failedEndpoints endpoints).length = endpoints.length then .critical else .warning,
    title := toString (failedEndpoints endpoints).length ++ " Endpoint(s) Unreachable",
    description := "The following endpoints are not responding: " ++ String.intercalate ", " ((failedEndpoints endpoints).map EndpointCheck.name),
    component := "API Surface",
    solution := "Check endpoint implementation and server logs for errors.",
    steps := [
      "Review API server logs for errors",
      "Check endpoint route definitions",
      "Verify middleware configuration",
      "Test endpoints individually",
      "Check for CORS or network issues"] }

/-- Rule 6 of detectProblems: fires when at least one endpoint probe
failed. -/
def endpointFailuresRule (endpoints : List EndpointCheck) : List Problem :=
  if failedEndpoints endpoints ≠ [] then
    [endpointFailuresProblem endpoints]
  else []

/-- The endpoint probes selected by `e.latency && e.latency > 1000`
(page.tsx line 287): a recorded, truthy latency above 1000 ms. Note the
source applies no status filter here. -/
def slowEndpoints (endpoints : List EndpointCheck) : List EndpointCheck :=
  endpoints.filter (fun e =>
    match e.latency with
    | some l => l != 0 && decide (1000 < l)
    | none => false)

/-- The rendering of one slow endpoint inside the high-latency problem
description: name and measured latency. -/
def slowEndpointText (e : EndpointCheck) : String :=
  e.name ++ " (" ++ (match e.latency with | some l => toString l | none => "undefined") ++ "ms)"

/-- The problem pushed by rule 7 of detectProblems (page.tsx lines 288 to
305). -/
def highLatencyProblem (endpoints : List EndpointCheck) : Problem :=
  { id := "high-latency",
    severity := .warning,
    title := "High API Response Latency",
    description := "Some endpoints are responding slowly: " ++ String.intercalate ", " ((slowEndpoints endpoints).map slowEndpointText),
    component := "Performance",
    solution := "Optimize endpoint performance and check database query performance.",
    steps := [
      "Check database query performance",
      "Review endpoint implementation for bottlenecks",
      "Check system resource usage (CPU, Memory)",
      "Consider adding caching for frequently accessed data",
      "Monitor performance metrics over time"] }

/-- Rule 7 of detectProblems: fires when at least one probe has a
recorded latency above 1000 ms. -/
def highLatencyRule (endpoints : List EndpointCheck) : List Problem :=
  if slowEndpoints endpoints ≠ [] then
    [highLatencyProblem endpoints]
  else []

/-- detectProblems from page.tsx lines 135 to 308: the seven rules are
evaluated independently and their problems collected in source order. -/
def detectProblems (healthData readyData : Option Json) (plugins : List PluginStatus)
    (endpoints : List EndpointCheck) : List Problem :=
  healthFailureRule healthData ++
  readinessFailureRule readyData ++
  databaseConnectionRule healthData ++
  redisConnectionRule healthData ++
  missingPluginsRule plugins ++
  endpointFailuresRule endpoints ++
  highLatencyRule endpoints

/-- The result record of `UltraSecureApiClient.healthCheck` (client.ts
lines 188 to 213): a status string and a CORS flag. The record carries no
data field (the wall-clock timestamp field is omitted). -/
structure ClientHealthResult where
  status : String
  cors : Bool
deriving DecidableEq

/-- UltraSecureApiClient.healthCheck from client.ts lines 188 to 213: on a
received response the status is "healthy" exactly when the response is ok,
otherwise "unhealthy"; every thrown exception is caught and mapped to
status "error". The method never throws. -/
def clientHealthCheck (fetched : Except JsError HttpResponse) : ClientHealthResult :=
  match fetched with
  | .ok response =>
      { status := if response.ok then "healthy" else "unhealthy",
        cors := response.corsOrigin.isSome }
  | .error _ => { status := "error", cors := false }

/-- Modelled from the spec: the result of `UltraSecureApiClient.readyCheck`,
which `fetchDiagnostics` awaits but which is absent from the available
client source. Per spec section 4.2 step 2 the readiness call reports a
status string (ready, not_ready, or anything else) together with the raw
ready payload. -/
structure ReadyResult where
  status : String
  data : Option Json
deriving DecidableEq

/-- One entry of the fetched plugin listing as read by `fetchDiagnostics`
(page.tsx lines 357 to 364): possibly-absent name and id fields. -/
structure PluginInfo where
  name : Option String
  id : Option String
deriving DecidableEq

/-- Modelled from the spec: the result of `UltraSecureApiClient.checkPlugins`,
absent from the available client source; `fetchDiagnostics` reads a status
string and a possibly-absent plugin array (page.tsx lines 355 to 365). -/
structure PluginsResult where
  status : String
  plugins : Option (List PluginInfo)
deriving DecidableEq

/-- Modelled from the spec: the result of `UltraSecureApiClient.checkMetrics`,
absent from the available client source; `fetchDiagnostics` reads only its
status string (page.tsx lines 379 to 380). -/
structure MetricsResult where
  status : String
deriving DecidableEq

/-- The JavaScript expression `x || d` on a possibly-undefined string. -/
def jsOrOptStr (x : Option String) (d : String) : String :=
  match x with
  | some s => if s = "" then d else s
  | none => d

/-- The environment one aggregation cycle runs against: the outcome of
each network interaction the cycle performs. Client calls that the page
awaits directly are `Except` values whose error case models a thrown
exception; the endpoint prober inputs are indexed by probe path. -/
structure CycleEnv where
  healthFetch : Except JsError HttpResponse
  readyCall : Except JsError ReadyResult
  pluginsCall : Except JsError PluginsResult
  metricsCall : Except JsError MetricsResult
  probeResult : String → Except JsError HttpResponse
  probeLatency : String → Nat

/-- SystemDiagnostics from page.tsx lines 51 to 64: the snapshot published
at the end of a cycle. -/
structure SystemDiagnostics where
  globalStatus : SystemStatus
  healthStatus : CheckStatus
  readyStatus : CheckStatus
  healthData : Option Json
  readyData : Option Json
  plugins : List PluginStatus
  endpoints : List EndpointCheck
  metricsAvailable : Bool
  problems : List Problem
  insights : List String
  uptime : Option Json
  version : Option Json
deriving DecidableEq

/-- The initial diagnostics state installed by useState (page.tsx lines
77 to 86). -/
def initialDiagnostics : SystemDiagnostics :=
  { globalStatus := .down,
    healthStatus := .loading,
    readyStatus := .loading,
    healthData := none,
    readyData := none,
    plugins := [],
    endpoints := [],
    metricsAvailable := false,
    problems := [],
    insights := [],
    uptime := none,
    version := none }

/-- The synthetic problem installed by the top-level catch of
fetchDiagnostics (page.tsx lines 427 to 442). -/
def connectionErrorProblem : Problem :=
  { id := "connection-error",
    severity := .critical,
    title := "Connection Error",
    description := "Failed to connect to the API. Check network connectivity and API base URL configuration.",
    component := "Network",
    solution := "Verify API base URL is correct and service is running.",
    steps := [
      "Check NEXT_PUBLIC_API_BASE_URL environment variable",
      "Verify API service is deployed and running",
      "Check network connectivity",
      "Review API service logs in Railway",
      "Test API endpoint directly in browser"] }

/-- Whether an exception escapes the body of the aggregation cycle and
reaches its top-level catch. `clientHealthCheck` and `checkEndpoint` catch
internally and the plugin and metrics calls sit inside their own inner
try blocks, so the awaited readiness call is the escape point of the body. -/
def cycleThrows (env : CycleEnv) : Bool :=
  match env.readyCall with
  | .error _ => true
  | .ok _ => false

/-- fetchDiagnostics from page.tsx lines 310 to 447: one full aggregation
cycle. On success a fresh snapshot is assembled from the results of this cycle
only; when an exception escapes the body, the catch branch publishes the
previous snapshot with the status fields forced and a single synthetic
connection-error problem (the spread `...prev` retains every other field
of the previous snapshot). -/
def fetchDiagnostics (env : CycleEnv) (prev : SystemDiagnostics) : SystemDiagnostics :=
  match env.readyCall with
  | .error _ =>
      { prev with
        globalStatus := .down,
        healthStatus := .error,
        readyStatus := .error,
        problems := [connectionErrorProblem] }
  | .ok readyResult =>
      let healthResult := clientHealthCheck env.healthFetch
      let healthStatus : CheckStatus :=
        if healthResult.status = "healthy" then .success
        else if healthResult.status = "unhealthy" then .error
        else .error
      -- healthResult carries no data field, so `healthResult.data` is undefined.
      let healthData : Option Json := none
      let insightsHealth : List String :=
        if healthStatus = .error then
          ["Health endpoint is failing. The system may be down or unreachable."]
        else if jsTruthy healthData then
          ["Health check passed. Core systems are operational."]
        else []
      let readyStatus : CheckStatus :=
        if readyResult.status = "ready" then .success
        else if readyResult.status = "not_ready" then .warning
        else .error
      let insightsReady : List String :=
        if readyStatus = .error then
          ["Ready endpoint is unreachable. Cannot determine if system is ready."]
        else if readyStatus = .warning then
          ["System is not ready. Dependencies may not be initialized."]
        else
          ["System is ready and accepting requests."]
      let globalStatus := resolveGlobalStatus healthStatus readyStatus
      let pluginStatuses : List PluginStatus :=
        match env.pluginsCall with
        | .ok pr =>
            if pr.status = "available" ∧ pr.plugins.isSome then
              (pr.plugins.getD []).map (fun p =>
                { name := jsOrOptStr p.name (jsOrOptStr p.id "Unknown"), available := true })
            else []
        | .error _ => []
      let insightsPlugins : List String :=
        match env.pluginsCall with
        | .ok _ => []
        | .error _ => ["Unable to check plugin status. Plugin endpoint may be unavailable."]
      let metricsAvailable : Bool :=
        match env.metricsCall with
        | .ok mr => mr.status = "available"
        | .error _ => false
      let endpointsToCheck : List (String × String) :=
        [("Root", "/"), ("Health", "/health"), ("Ready", "/ready")] ++
        (if metricsAvailable then [("Metrics", "/metrics")] else [])
      let endpointChecks := endpointsToCheck.map (fun ep =>
        checkEndpoint ep.1 ep.2 (env.probeResult ep.2) (env.probeLatency ep.2))
      let problems := detectProblems healthData readyResult.data pluginStatuses endpointChecks
      { globalStatus := globalStatus,
        healthStatus := healthStatus,
        readyStatus := readyStatus,
        healthData := healthData,
        readyData := readyResult.data,
        plugins := pluginStatuses,
        endpoints := endpointChecks,
        metricsAvailable := metricsAvailable,
        problems := problems,
        insights := insightsHealth ++ insightsReady ++ insightsPlugins,
        uptime := jsGet healthData "uptime",
        version := jsGet healthData "version" }

/-! Helper lemmas about rule membership. -/

theorem mem_detectProblems {p : Problem} {h r : Option Json} {ps : List PluginStatus}
    {es : List EndpointCheck} :
    p ∈ detectProblems h r ps es ↔
      p ∈ healthFailureRule h ∨ p ∈ readinessFailureRule r ∨ p ∈ databaseConnectionRule h ∨
      p ∈ redisConnectionRule h ∨ p ∈ missingPluginsRule ps ∨ p ∈ endpointFailuresRule es ∨
      p ∈ highLatencyRule es := by
  simp [detectProblems, List.mem_append, or_assoc]

theorem mem_healthFailureRule {p : Problem} {h : Option Json} :
    p ∈ healthFailureRule h ↔
      (jsTruthy h = false ∨ jsGet h "status" ≠ some (Json.str "healthy")) ∧
      p = healthFailureProblem := by
  unfold healthFailureRule
  split <;> simp_all

theorem mem_readinessFailureRule {p : Problem} {r : Option Json} :
    p ∈ readinessFailureRule r ↔
      (jsTruthy r = false ∨ jsGet r "ready" ≠ some (Json.bool true)) ∧
      p = readinessFailureProblem r := by
  unfold readinessFailureRule
  split <;> simp_all

theorem mem_databaseConnectionRule {p : Problem} {h : Option Json} :
    p ∈ databaseConnectionRule h ↔
      jsGet (jsGet h "checks") "database" = some (Json.bool false) ∧
      p = databaseConnectionProblem := by
  unfold databaseConnectionRule
  split <;> simp_all

theorem mem_redisConnectionRule {p : Problem} {h : Option Json} :
    p ∈ redisConnectionRule h ↔
      jsGet (jsGet h "checks") "redis" = some (Json.bool false) ∧
      p = redisConnectionProblem := by
  unfold redisConnectionRule
  split <;> simp_all

theorem mem_missingPluginsRule {p : Problem} {ps : List PluginStatus} :
    p ∈ missingPluginsRule ps ↔
      (missingPlugins ps ≠ [] ∧ ps ≠ []) ∧ p = missingPluginsProblem ps := by
  unfold missingPluginsRule
  split <;> simp_all

theorem mem_endpointFailuresRule {p : Problem} {es : List EndpointCheck} :
    p ∈ endpointFailuresRule es ↔
      failedEndpoints es ≠ [] ∧ p = endpointFailuresProblem es := by
  unfold endpointFailuresRule
  split <;> simp_all

theorem mem_highLatencyRule {p : Problem} {es : List EndpointCheck} :
    p ∈ highLatencyRule es ↔
      slowEndpoints es ≠ [] ∧ p = highLatencyProblem es := by
  unfold highLatencyRule
  split <;> simp_all

/-- A JSON value with at least one readable field is an object and hence
truthy. -/
theorem Json.truthy_of_get {v : Json} {k : String} {x : Json}
    (hget : v.get k = some x) : v.truthy = true := by
  cases v <;> simp_all [Json.get, Json.truthy]

/-- C1: for every cycle, a health status of error resolves the global
status to down, whatever the readiness status is; the readiness value is
never consulted in that case. -/
theorem health_error_forces_down (r : CheckStatus) :
    resolveGlobalStatus CheckStatus.error r = SystemStatus.down := by
  simp [resolveGlobalStatus]

/-- C6: for every ready payload, the readiness-failure problem fires iff
the payload is missing or its ready field is not true, and its severity is
warning exactly when the ready field is explicitly false, and critical in
every other case (payload missing, ready field undefined, or any other
value). -/
theorem readiness_failure_characterization (h r : Option Json) (ps : List PluginStatus)
    (es : List EndpointCheck) :
    ((∃ p ∈ detectProblems h r ps es, p.id = "readiness-failure") ↔
      jsGet r "ready" ≠ some (Json.bool true)) ∧
    (∀ p ∈ detectProblems h r ps es, p.id = "readiness-failure" →
      ((p.severity = Severity.warning ↔ jsGet r "ready" = some (Json.bool false)) ∧
       (p.severity = Severity.critical ↔ jsGet r "ready" ≠ some (Json.bool false)))) := by
  have hfrom : ∀ p ∈ detectProblems h r ps es, p.id = "readiness-failure" →
      (jsTruthy r = false ∨ jsGet r "ready" ≠ some (Json.bool true)) ∧
      p = readinessFailureProblem r := by
    intro p hp hid
    rw [mem_detectProblems] at hp
    rcases hp with hp | hp | hp | hp | hp | hp | hp
    · obtain ⟨-, rfl⟩ := mem_healthFailureRule.mp hp
      exact absurd hid (by decide)
    · exact mem_readinessFailureRule.mp hp
    · obtain ⟨-, rfl⟩ := mem_databaseConnectionRule.mp hp
      exact absurd hid (by decide)
    · obtain ⟨-, rfl⟩ := mem_redisConnectionRule.mp hp
      exact absurd hid (by decide)
    · obtain ⟨-, rfl⟩ := mem_missingPluginsRule.mp hp
      simp [missingPluginsProblem] at hid
    · obtain ⟨-, rfl⟩ := mem_endpointFailuresRule.mp hp
      simp [endpointFailuresProblem] at hid
    · obtain ⟨-, rfl⟩ := mem_highLatencyRule.mp hp
      simp [highLatencyProblem] at hid
  have hcond_ne : ∀ hc : (jsTruthy r = false ∨ jsGet r "ready" ≠ some (Json.bool true)),
      jsGet r "ready" ≠ some (Json.bool true) := by
    intro hc heq
    rcases hc with hc | hc
    · cases r with
      | none => simp [jsGet] at heq
      | some v =>
          simp only [jsGet, Option.bind_some] at heq
          have := Json.truthy_of_get heq
          simp [jsTruthy, this] at hc
    · exact hc heq
  constructor
  · constructor
    · rintro ⟨p, hp, hid⟩
      exact hcond_ne (hfrom p hp hid).1
    · intro hne
      refine ⟨readinessFailureProblem r, ?_, rfl⟩
      exact mem_detectProblems.mpr (Or.inr (Or.inl
        (mem_readinessFailureRule.mpr ⟨Or.inr hne, rfl⟩)))
  · intro p hp hid
    obtain ⟨-, rfl⟩ := hfrom p hp hid
    by_cases hc : jsGet r "ready" = some (Json.bool false) <;>
      simp [readinessFailureProblem, hc]

/-- The ready payload used to exercise the readiness-failure rule at a
concrete input: an object with an explicit `ready: false` field. -/
def readyFalsePayload : Option Json :=
  some (Json.obj (JsonFields.cons "ready" (Json.bool false) JsonFields.nil))

/-- C6 witness: at the concrete payload with `ready: false` the rule fires
with severity warning, by the characterization theorem itself. -/
theorem readiness_failure_characterization_witness :
    ((readinessFailureProblem readyFalsePayload).severity = Severity.warning ↔
      jsGet readyFalsePayload "ready" = some (Json.bool false)) ∧
    ((readinessFailureProblem readyFalsePayload).severity = Severity.critical ↔
      jsGet readyFalsePayload "ready" ≠ some (Json.bool false)) :=
  (readiness_failure_characterization none readyFalsePayload [] []).2
    (readinessFailureProblem readyFalsePayload) (by decide) (by decide)

/-- Only rule 6 ever emits a problem with id endpoint-failures: filtering
the detector output on that id yields exactly the contribution of rule 6. -/
theorem endpointFilter_detect (h r : Option Json) (ps : List PluginStatus)
    (es : List EndpointCheck) :
    (detectProblems h r ps es).filter (fun p => p.id == "endpoint-failures") =
      endpointFailuresRule es := by
  have hnil : ∀ l : List Problem, (∀ p ∈ l, (p.id == "endpoint-failures") = false) →
      l.filter (fun p => p.id == "endpoint-failures") = [] := by
    intro l hl
    rw [List.filter_eq_nil_iff]
    intro a ha
    simp [hl a ha]
  have h1 := hnil (healthFailureRule h) (by
    intro p hp; obtain ⟨-, rfl⟩ := mem_healthFailureRule.mp hp; decide)
  have h2 := hnil (readinessFailureRule r) (by
    intro p hp; obtain ⟨-, rfl⟩ := mem_readinessFailureRule.mp hp
    simp [readinessFailureProblem])
  have h3 := hnil (databaseConnectionRule h) (by
    intro p hp; obtain ⟨-, rfl⟩ := mem_databaseConnectionRule.mp hp; decide)
  have h4 := hnil (redisConnectionRule h) (by
    intro p hp; obtain ⟨-, rfl⟩ := mem_redisConnectionRule.mp hp; decide)
  have h5 := hnil (missingPluginsRule ps) (by
    intro p hp; obtain ⟨-, rfl⟩ := mem_missingPluginsRule.mp hp
    simp [missingPluginsProblem])
  have h7 := hnil (highLatencyRule es) (by
    intro p hp; obtain ⟨-, rfl⟩ := mem_highLatencyRule.mp hp
    simp [highLatencyProblem])
  have h6 : (endpointFailuresRule es).filter (fun p => p.id == "endpoint-failures") =
      endpointFailuresRule es := by
    apply List.filter_eq_self.mpr
    intro p hp; obtain ⟨-, rfl⟩ := mem_endpointFailuresRule.mp hp
    simp [endpointFailuresProblem]
  unfold detectProblems
  simp only [List.filter_append, h1, h2, h3, h4, h5, h6, h7]
  simp

/-- C7: whenever at least one endpoint probe failed, the detector output
contains exactly one endpoint-failures problem, namely the one built by
rule 6; its severity is critical iff every probed endpoint failed and
warning iff only some failed, and its description names exactly the
failing endpoints. -/
theorem endpoint_failures_characterization (h r : Option Json) (ps : List PluginStatus)
    (es : List EndpointCheck) (hex : ∃ e ∈ es, e.status = CheckStatus.error) :
    (detectProblems h r ps es).filter (fun p => p.id == "endpoint-failures") =
      [endpointFailuresProblem es] ∧
    ((endpointFailuresProblem es).severity = Severity.critical ↔
      ∀ e ∈ es, e.status = CheckStatus.error) ∧
    ((endpointFailuresProblem es).severity = Severity.warning ↔
      ∃ e ∈ es, e.status ≠ CheckStatus.error) ∧
    (endpointFailuresProblem es).description =
      "The following endpoints are not responding: " ++
        String.intercalate ", " ((failedEndpoints es).map EndpointCheck.name) := by
  obtain ⟨e, he, hestat⟩ := hex
  have hmem : e ∈ failedEndpoints es := by
    simp [failedEndpoints, List.mem_filter, he, hestat]
  have hne : failedEndpoints es ≠ [] := List.ne_nil_of_mem hmem
  have hlen : (failedEndpoints es).length = es.length ↔ ∀ a ∈ es, a.status = CheckStatus.error := by
    unfold failedEndpoints
    rw [List.filter_length_eq_length]
    simp
  refine ⟨?_, ?_, ?_, rfl⟩
  · rw [endpointFilter_detect]
    unfold endpointFailuresRule
    rw [if_pos hne]
  · show (if (failedEndpoints es).length = es.length then Severity.critical else Severity.warning) =
      Severity.critical ↔ _
    rw [← hlen]
    split <;> simp_all
  · show (if (failedEndpoints es).length = es.length then Severity.critical else Severity.warning) =
      Severity.warning ↔ _
    constructor
    · intro hw
      by_contra hno
      push_neg at hno
      have : (failedEndpoints es).length = es.length := hlen.mpr hno
      rw [if_pos this] at hw
      cases hw
    · intro ⟨a, ha, hane⟩
      have : ¬ (failedEndpoints es).length = es.length := by
        rw [hlen]
        intro hall
        exact hane (hall a ha)
      rw [if_neg this]

/-- A concrete probe list for the endpoint-failures scenario: one probe
failed and one succeeded. -/
def esOneFail : List EndpointCheck :=
  [⟨"Root", "/", .error, some 100, some "HTTP 500"⟩,
   ⟨"Health", "/health", .success, some 50, none⟩]

/-- C7 witness: the characterization applied at a concrete probe list in
which one of two probes failed. -/
theorem endpoint_failures_characterization_witness :
    (detectProblems none none [] esOneFail).filter (fun p => p.id == "endpoint-failures") =
      [endpointFailuresProblem esOneFail] ∧
    ((endpointFailuresProblem esOneFail).severity = Severity.critical ↔
      ∀ e ∈ esOneFail, e.status = CheckStatus.error) ∧
    ((endpointFailuresProblem esOneFail).severity = Severity.warning ↔
      ∃ e ∈ esOneFail, e.status ≠ CheckStatus.error) ∧
    (endpointFailuresProblem esOneFail).description =
      "The following endpoints are not responding: " ++
        String.intercalate ", " ((failedEndpoints esOneFail).map EndpointCheck.name) :=
  endpoint_failures_characterization none none [] esOneFail
    ⟨⟨"Root", "/", .error, some 100, some "HTTP 500"⟩, by decide, rfl⟩

/-- Every problem in the detector output is one of the seven fixed rule
problems for the given inputs. -/
theorem detect_cases {p : Problem} {h r : Option Json} {ps : List PluginStatus}
    {es : List EndpointCheck} (hp : p ∈ detectProblems h r ps es) :
    p = healthFailureProblem ∨ p = readinessFailureProblem r ∨ p = databaseConnectionProblem ∨
    p = redisConnectionProblem ∨ p = missingPluginsProblem ps ∨
    p = endpointFailuresProblem es ∨ p = highLatencyProblem es := by
  rw [mem_detectProblems] at hp
  rcases hp with hp | hp | hp | hp | hp | hp | hp
  · exact Or.inl (mem_healthFailureRule.mp hp).2
  · exact Or.inr (Or.inl (mem_readinessFailureRule.mp hp).2)
  · exact Or.inr (Or.inr (Or.inl (mem_databaseConnectionRule.mp hp).2))
  · exact Or.inr (Or.inr (Or.inr (Or.inl (mem_redisConnectionRule.mp hp).2)))
  · exact Or.inr (Or.inr (Or.inr (Or.inr (Or.inl (mem_missingPluginsRule.mp hp).2))))
  · exact Or.inr (Or.inr (Or.inr (Or.inr (Or.inr (Or.inl (mem_endpointFailuresRule.mp hp).2)))))
  · exact Or.inr (Or.inr (Or.inr (Or.inr (Or.inr (Or.inr (mem_highLatencyRule.mp hp).2)))))

/-- The missing-plugin list is non-empty exactly when some required plugin
has no pattern match among the fetched names. -/
theorem missingPlugins_ne_nil_iff (ps : List PluginStatus) :
    missingPlugins ps ≠ [] ↔ ∃ c ∈ criticalPlugins, pluginPatternFound ps c.2 = false := by
  unfold missingPlugins
  rw [Ne, List.map_eq_nil_iff, List.filter_eq_nil_iff]
  push_neg
  simp

/-- C8: the critical missing-plugins problem fires iff the fetched plugin
list is non-empty and some required plugin has no case-insensitive name
match; when the listing could not be fetched (empty list) the rule stays
silent, and when it fires its title lists the missing names while its
resolution steps list the names that were found. -/
theorem missing_plugins_characterization (h r : Option Json) (ps : List PluginStatus)
    (es : List EndpointCheck) :
    ((∃ p ∈ detectProblems h r ps es, p.id = "missing-plugins") ↔
      ps ≠ [] ∧ ∃ c ∈ criticalPlugins, pluginPatternFound ps c.2 = false) ∧
    (∀ p ∈ detectProblems h r ps es, p.id = "missing-plugins" →
      p.severity = Severity.critical ∧
      p.title = "Missing Critical Plugins: " ++ String.intercalate ", " (missingPlugins ps) ∧
      p.description = "Required plugins are not available: " ++
        String.intercalate ", " (missingPlugins ps) ++ ". Core functionality may be impaired." ∧
      availablePluginsStep ps ∈ p.steps) := by
  have hfrom : ∀ p ∈ detectProblems h r ps es, p.id = "missing-plugins" →
      p = missingPluginsProblem ps := by
    intro p hp hid
    rcases detect_cases hp with rfl | rfl | rfl | rfl | rfl | rfl | rfl
    · exact absurd hid (by decide)
    · simp [readinessFailureProblem] at hid
    · exact absurd hid (by decide)
    · exact absurd hid (by decide)
    · rfl
    · simp [endpointFailuresProblem] at hid
    · simp [highLatencyProblem] at hid
  constructor
  · constructor
    · rintro ⟨p, hp, hid⟩
      have hps := hfrom p hp hid
      rw [mem_detectProblems] at hp
      rcases hp with hp | hp | hp | hp | hp | hp | hp
      · obtain ⟨-, rfl⟩ := mem_healthFailureRule.mp hp
        exact absurd hid (by decide)
      · obtain ⟨-, rfl⟩ := mem_readinessFailureRule.mp hp
        simp [readinessFailureProblem] at hid
      · obtain ⟨-, rfl⟩ := mem_databaseConnectionRule.mp hp
        exact absurd hid (by decide)
      · obtain ⟨-, rfl⟩ := mem_redisConnectionRule.mp hp
        exact absurd hid (by decide)
      · obtain ⟨⟨hmiss, hne⟩, -⟩ := mem_missingPluginsRule.mp hp
        exact ⟨hne, (missingPlugins_ne_nil_iff ps).mp hmiss⟩
      · obtain ⟨-, rfl⟩ := mem_endpointFailuresRule.mp hp
        simp [endpointFailuresProblem] at hid
      · obtain ⟨-, rfl⟩ := mem_highLatencyRule.mp hp
        simp [highLatencyProblem] at hid
    · rintro ⟨hne, hc⟩
      refine ⟨missingPluginsProblem ps, ?_, rfl⟩
      exact mem_detectProblems.mpr (Or.inr (Or.inr (Or.inr (Or.inr (Or.inl
        (mem_missingPluginsRule.mpr
          ⟨⟨(missingPlugins_ne_nil_iff ps).mpr hc, hne⟩, rfl⟩))))))
  · intro p hp hid
    obtain rfl := hfrom p hp hid
    refine ⟨rfl, rfl, rfl, ?_⟩
    simp [missingPluginsProblem]

/-- A concrete fetched plugin list containing only the store plugin. -/
def psStoreOnly : List PluginStatus := [⟨"store", true⟩]

/-- C8 witness: with only the store plugin fetched, the rule fires and its
text lists the two missing names and the single found name, by the
characterization theorem itself. -/
theorem missing_plugins_characterization_witness :
    (missingPluginsProblem psStoreOnly).severity = Severity.critical ∧
    (missingPluginsProblem psStoreOnly).title =
      "Missing Critical Plugins: " ++ String.intercalate ", " (missingPlugins psStoreOnly) ∧
    (missingPluginsProblem psStoreOnly).description = "Required plugins are not available: " ++
      String.intercalate ", " (missingPlugins psStoreOnly) ++ ". Core functionality may be impaired." ∧
    availablePluginsStep psStoreOnly ∈ (missingPluginsProblem psStoreOnly).steps :=
  (missing_plugins_characterization none none psStoreOnly []).2
    (missingPluginsProblem psStoreOnly) (by decide) (by decide)

/-- A failed endpoint probe with a recorded latency above the 1000 ms
threshold. -/
def failedSlowProbe : EndpointCheck :=
  ⟨"Health", "/health", .error, some 2000, some "HTTP 500"⟩

/-- C4 counterexample: the claim that a probe with outcome fail never
appears among the slow endpoints named in the high-latency problem is
false — the source filter `e.latency && e.latency > 1000` applies no
status restriction, so this failed 2000 ms probe is selected and named in
the problem description. -/
theorem high_latency_includes_failed_probe_cex :
    failedSlowProbe.status = CheckStatus.error ∧
    failedSlowProbe ∈ slowEndpoints [failedSlowProbe] ∧
    ((detectProblems none none [] [failedSlowProbe]).filter
        (fun p => p.id == "high-latency")).map Problem.description =
      ["Some endpoints are responding slowly: Health (2000ms)"] := by
  decide

/-- C4 amended: the high-latency warning problem is built from every probe
with a recorded latency above 1000 ms regardless of outcome; in
particular a failed probe with such a latency is selected among the slow
endpoints and the problem names the selected probes with their measured
latencies. -/
theorem high_latency_ignores_probe_outcome (h r : Option Json) (ps : List PluginStatus)
    (es : List EndpointCheck) (e : EndpointCheck) (l : Nat)
    (hmem : e ∈ es) ( _hstat : e.status = CheckStatus.error)
    (hlat : e.latency = some l) (hgt : 1000 < l) :
    e ∈ slowEndpoints es ∧
    ∃ p ∈ detectProblems h r ps es, p.id = "high-latency" ∧
      p.severity = Severity.warning ∧
      p.description = "Some endpoints are responding slowly: " ++
        String.intercalate ", " ((slowEndpoints es).map slowEndpointText) := by
  have hslow : e ∈ slowEndpoints es := by
    unfold slowEndpoints
    rw [List.mem_filter]
    refine ⟨hmem, ?_⟩
    rw [hlat]
    simp only [Bool.and_eq_true, bne_iff_ne, ne_eq, decide_eq_true_eq]
    exact ⟨by omega, hgt⟩
  refine ⟨hslow, highLatencyProblem es, ?_, rfl, rfl, rfl⟩
  exact mem_detectProblems.mpr (Or.inr (Or.inr (Or.inr (Or.inr (Or.inr (Or.inr
    (mem_highLatencyRule.mpr ⟨List.ne_nil_of_mem hslow, rfl⟩)))))))

/-- C4 amended witness: the amended claim applied at a concrete failed
5000 ms probe. -/
theorem high_latency_ignores_probe_outcome_witness :
    (⟨"Ready", "/ready", .error, some 5000, some "HTTP 503"⟩ : EndpointCheck) ∈
      slowEndpoints [⟨"Ready", "/ready", .error, some 5000, some "HTTP 503"⟩] ∧
    ∃ p ∈ detectProblems none none []
        [⟨"Ready", "/ready", .error, some 5000, some "HTTP 503"⟩], p.id = "high-latency" ∧
      p.severity = Severity.warning ∧
      p.description = "Some endpoints are responding slowly: " ++
        String.intercalate ", "
          ((slowEndpoints [⟨"Ready", "/ready", .error, some 5000, some "HTTP 503"⟩]).map
            slowEndpointText) :=
  high_latency_ignores_probe_outcome none none []
    [⟨"Ready", "/ready", .error, some 5000, some "HTTP 503"⟩]
    ⟨"Ready", "/ready", .error, some 5000, some "HTTP 503"⟩ 5000
    (by decide) rfl rfl (by decide)

/-- A cycle environment whose awaited readiness call throws, driving the
cycle into its top-level catch. -/
def envThrowing : CycleEnv where
  healthFetch := .error .nonError
  readyCall := .error (.err "TypeError: readyCheck is not a function")
  pluginsCall := .error .nonError
  metricsCall := .error .nonError
  probeResult := fun _ => .error .nonError
  probeLatency := fun _ => 0

/-- A previously published snapshot carrying non-empty plugin, endpoint
and insight data. -/
def prevPopulated : SystemDiagnostics :=
  { initialDiagnostics with
    globalStatus := .operational,
    healthStatus := .success,
    readyStatus := .success,
    plugins := [⟨"store-postgres", true⟩],
    endpoints := [⟨"Root", "/", .success, some 42, none⟩],
    insights := ["System is ready and accepting requests."] }

/-- C3 counterexample: the published snapshot is not a wholesale
replacement independent of the prior snapshot — when the cycle fails, the
catch branch spreads the previous snapshot, so the same failing cycle
publishes different snapshots over different prior states, retaining the
old plugins, endpoints and insights. -/
theorem snapshot_not_wholesale_cex :
    fetchDiagnostics envThrowing prevPopulated ≠
      fetchDiagnostics envThrowing initialDiagnostics ∧
    (fetchDiagnostics envThrowing prevPopulated).plugins = [⟨"store-postgres", true⟩] ∧
    (fetchDiagnostics envThrowing prevPopulated).insights =
      ["System is ready and accepting requests."] := by
  decide

/-- C3 amended: a completed cycle publishes a snapshot built solely from
that cycle (independent of the prior snapshot), while a failing cycle
discards its own partial results but publishes the previous snapshot with
only the global status, the two check statuses and the problem list
overridden (the single synthetic connection-error problem); the previous
plugins, endpoints, insights and payload fields are retained. -/
theorem snapshot_replacement_characterization (env : CycleEnv) (prev : SystemDiagnostics) :
    fetchDiagnostics env prev =
      if cycleThrows env = true then
        { prev with
          globalStatus := .down,
          healthStatus := .error,
          readyStatus := .error,
          problems := [connectionErrorProblem] }
      else fetchDiagnostics env initialDiagnostics := by
  rcases hrc : env.readyCall with e | rr <;>
    simp [fetchDiagnostics, cycleThrows, hrc]

/-- C5: whenever an exception escapes the cycle body, the published
snapshot carries exactly the single synthetic connection-error problem of
severity critical, with the global status forced to down and both check
statuses set to error; the cycle still completes with a published
snapshot. -/
theorem cycle_exception_catchall (env : CycleEnv) (prev : SystemDiagnostics)
    (hthrow : cycleThrows env = true) :
    (fetchDiagnostics env prev).problems = [connectionErrorProblem] ∧
    connectionErrorProblem.id = "connection-error" ∧
    connectionErrorProblem.severity = Severity.critical ∧
    (fetchDiagnostics env prev).globalStatus = SystemStatus.down ∧
    (fetchDiagnostics env prev).healthStatus = CheckStatus.error ∧
    (fetchDiagnostics env prev).readyStatus = CheckStatus.error := by
  unfold cycleThrows at hthrow
  rcases hrc : env.readyCall with e | rr
  · refine ⟨?_, rfl, rfl, ?_, ?_, ?_⟩ <;> simp [fetchDiagnostics, hrc]
  · rw [hrc] at hthrow
    cases hthrow

/-- C5 witness: the catch-all behaviour at a concrete throwing environment
over a populated prior snapshot, by the catch-all theorem itself. -/
theorem cycle_exception_catchall_witness :
    (fetchDiagnostics envThrowing prevPopulated).problems = [connectionErrorProblem] ∧
    connectionErrorProblem.id = "connection-error" ∧
    connectionErrorProblem.severity = Severity.critical ∧
    (fetchDiagnostics envThrowing prevPopulated).globalStatus = SystemStatus.down ∧
    (fetchDiagnostics envThrowing prevPopulated).healthStatus = CheckStatus.error ∧
    (fetchDiagnostics envThrowing prevPopulated).readyStatus = CheckStatus.error :=
  cycle_exception_catchall envThrowing prevPopulated (by decide)

/-- C10: the published global status is always operational, degraded or
down; the value critical, although part of the SystemStatus type, is
produced neither by the resolver nor by the cycle-failure path. -/
theorem published_global_status_never_critical (env : CycleEnv) (prev : SystemDiagnostics) :
    (fetchDiagnostics env prev).globalStatus ≠ SystemStatus.critical := by
  rcases hrc : env.readyCall with e | rr
  · simp [fetchDiagnostics, hrc]
  · simp only [fetchDiagnostics, hrc]
    unfold resolveGlobalStatus
    split_ifs <;> simp

/-- C9: the endpoint prober is total over both fetch outcomes — on a
received response the check succeeds iff the status code lies in the 200
to 299 range and otherwise fails with the error text HTTP followed by the
status code; on a thrown exception (timeout abort or network failure) it
fails with the underlying error message; latency is recorded in every
case. -/
theorem checkEndpoint_contract (name path : String) (lat : Nat) :
    (∀ resp : HttpResponse,
      checkEndpoint name path (Except.ok resp) lat =
        { name := name, path := path,
          status := if 200 ≤ resp.statusCode ∧ resp.statusCode ≤ 299
                    then CheckStatus.success else CheckStatus.error,
          latency := some lat,
          errMsg := if 200 ≤ resp.statusCode ∧ resp.statusCode ≤ 299 then none
                    else some ("HTTP " ++ toString resp.statusCode) }) ∧
    (∀ e : JsError,
      checkEndpoint name path (Except.error e) lat =
        { name := name, path := path, status := CheckStatus.error,
          latency := some lat, errMsg := some e.message }) := by
  refine ⟨fun resp => ?_, fun e => rfl⟩
  by_cases hc : 200 ≤ resp.statusCode ∧ resp.statusCode ≤ 299
  · have hb : resp.ok = true := by
      simp only [HttpResponse.ok, Bool.and_eq_true, decide_eq_true_eq]
      omega
    simp [checkEndpoint, hb, hc]
  · have hb : resp.ok = false := by
      simp only [HttpResponse.ok, Bool.and_eq_false_iff, decide_eq_false_iff_not]
      omega
    simp [checkEndpoint, hb, hc]

/-- A cycle environment in which every network interaction succeeds: the
health endpoint answers HTTP 200 (the client maps it to healthy), the
readiness call reports ready with payload ready true, the plugin listing
returns all three required plugins, metrics are available and every
endpoint probe answers HTTP 200 within 50 ms. -/
def fullyHealthyEnv : CycleEnv where
  healthFetch := .ok ⟨200, some "*"⟩
  readyCall := .ok ⟨"ready", some (.obj (.cons "ready" (.bool true) .nil))⟩
  pluginsCall := .ok ⟨"available",
    some [⟨some "store-postgres", none⟩, ⟨some "supervisor-postgres", none⟩,
          ⟨some "memory-stm-db", none⟩]⟩
  metricsCall := .ok ⟨"available"⟩
  probeResult := fun _ => .ok ⟨200, some "*"⟩
  probeLatency := fun _ => 50

/-- C2: on a fully healthy cycle both check statuses resolve to success
and the global status to operational, yet the published problem list
still contains the critical health-failure problem — the healthCheck method
of the client returns no data field, so the health payload handed to the
detector is undefined every cycle and rule 1 fires unconditionally. -/
theorem health_failure_fires_on_fully_healthy_cycle :
    (fetchDiagnostics fullyHealthyEnv initialDiagnostics).healthStatus = CheckStatus.success ∧
    (fetchDiagnostics fullyHealthyEnv initialDiagnostics).readyStatus = CheckStatus.success ∧
    (fetchDiagnostics fullyHealthyEnv initialDiagnostics).globalStatus = SystemStatus.operational ∧
    (fetchDiagnostics fullyHealthyEnv initialDiagnostics).problems = [healthFailureProblem] ∧
    healthFailureProblem.id = "health-failure" ∧
    healthFailureProblem.severity = Severity.critical := by
  decide
